import Mathlib

/-!
# A model of `source/std/experimental/donotoptimizeaway.c`

The translation unit consists of one function, `doNotOptimizeAwayImpl`, whose
body is assembled by the preprocessor from two independent conditionals:

* lines 15-20, the toolchain conditional, choosing the barrier statement;
* lines 21-25, the platform conditional, choosing the process-identifier query
  (the same condition selects the declaration on lines 7-11).

The model keeps the `#if` conditions as the token sequences written in the
source and evaluates them with the precedence rules of C constant expressions,
so that the reading of `a || b || c && !d` is derived, not assumed.

The run-time state is the caller's byte memory, the file-scope static of
line 4, the characters written to standard output, and a trace of the actions
the body performs, in order.
-/

namespace DoNotOptimizeAway

/-! ## Preprocessor -/

/-- The seven identifiers tested by `defined(...)` in the file. -/
inductive Symbol
  | __clang__
  | __GNUC__
  | __DMC__
  | WIN32
  | _WIN32
  | __WIN32
  | __CYGWIN__
  deriving DecidableEq, Repr

/-- A build configuration: which identifiers are defined. -/
abbrev Defines := Symbol → Bool

/-- Tokens of the `#if` conditions that occur in the file. -/
inductive PPToken
  | defined (s : Symbol)
  | lor
  | land
  | lnot
  deriving DecidableEq, Repr

/-- Cut a token sequence at every top-level occurrence of `sep`
(the conditions of this file contain no grouping parentheses). -/
def splitAtTok (sep : PPToken) : List PPToken → List (List PPToken)
  | [] => [[]]
  | t :: ts =>
    if t = sep then [] :: splitAtTok sep ts
    else
      match splitAtTok sep ts with
      | [] => [[t]]
      | g :: gs => (t :: g) :: gs

/-- Unary expression: any number of `!` in front of one `defined(X)`. -/
def evalUnary (d : Defines) : List PPToken → Bool
  | [PPToken.defined s] => d s
  | PPToken.lnot :: ts => !(evalUnary d ts)
  | _ => false

/-- Logical-AND expression: unary expressions separated by `&&`. -/
def evalAnd (d : Defines) (ts : List PPToken) : Bool :=
  (splitAtTok PPToken.land ts).all (evalUnary d)

/-- Logical-OR expression: logical-AND expressions separated by `||`. -/
def evalOr (d : Defines) (ts : List PPToken) : Bool :=
  (splitAtTok PPToken.lor ts).any (evalAnd d)

/-- Line 3: `#if defined(__DMC__)`. -/
def condLine3 : List PPToken :=
  [.defined .__DMC__]

/-- Line 7:
`#if defined(WIN32) || defined(_WIN32) || defined(__WIN32) && !defined(__CYGWIN__)`. -/
def condLine7 : List PPToken :=
  [.defined .WIN32, .lor, .defined ._WIN32, .lor,
   .defined .__WIN32, .land, .lnot, .defined .__CYGWIN__]

/-- Line 15: `#if defined(__clang__) && defined(__GNUC__)`. -/
def condLine15 : List PPToken :=
  [.defined .__clang__, .land, .defined .__GNUC__]

/-- Line 17: `#elif defined(__DMC__)`. -/
def condLine17 : List PPToken :=
  [.defined .__DMC__]

/-- Line 21:
`#if defined(WIN32) || defined(_WIN32) || defined(__WIN32) && !defined(__CYGWIN__)`. -/
def condLine21 : List PPToken :=
  [.defined .WIN32, .lor, .defined ._WIN32, .lor,
   .defined .__WIN32, .land, .lnot, .defined .__CYGWIN__]

/-! ## Run-time state -/

/-- The two process-identifier queries named in the file. -/
inductive PidQuery
  | _getpid
  | getpid
  deriving DecidableEq, Repr

/-- Lines 7-11: the query whose declaration is compiled in. -/
def declaredQuery (d : Defines) : PidQuery :=
  if evalOr d condLine7 then PidQuery._getpid else PidQuery.getpid

/-- Line 3-5: whether the file-scope static exists in this build. -/
def sinkDeclared (d : Defines) : Bool :=
  evalOr d condLine3

/-- Actions of the function body, recorded in program order. -/
inductive Event
  /-- Line 16, `asm volatile("" : : "g"(p) : "memory")`: the address is an
  input operand of an empty instruction sequence with a memory clobber. -/
  | asmTouch (p : Nat)
  /-- Line 18, `globalVariableToFroceDMCnotNoOptimze = p`. -/
  | sinkStore (p : Nat)
  /-- Lines 22 and 24, the call of the process-identifier query. -/
  | call (q : PidQuery)
  /-- Line 27, the read `*((char*)p)` of one byte at `p`. -/
  | load (p : Nat)
  /-- Line 27, the call `putchar(c)`. -/
  | putchar (c : Int)
  deriving DecidableEq, Repr

/-- What the platform supplies: the value each query returns to this process
and whether plain `char` is a signed type. -/
structure Env where
  _getpid : Int
  getpid : Int
  charIsSigned : Bool

/-- Program state. `mem a = none` means that address `a` is not a readable
byte (the null pointer included); `sink` is the static of line 4, `none` when
it is not declared; `stdout` is the sequence of characters written to the
standard output stream. -/
structure State where
  mem : Nat → Option Nat
  sink : Option Nat
  stdout : List Nat
  trace : List Event

/-- How a call ends: it returns, or it performs an invalid read. -/
inductive Outcome
  | returned (st : State)
  | undefinedBehaviour (st : State)

/-- The state in which the call ended. -/
def Outcome.state : Outcome → State
  | .returned st => st
  | .undefinedBehaviour st => st

/-- Whether the call ended in an invalid read. -/
def Outcome.faulted : Outcome → Bool
  | .returned _ => false
  | .undefinedBehaviour _ => true

/-- Append one action to the trace. -/
def State.emit (st : State) (e : Event) : State :=
  { st with trace := st.trace ++ [e] }

/-- The value of a byte with object representation `b` read as a `char`. -/
def asChar (env : Env) (b : Nat) : Int :=
  if env.charIsSigned && decide (128 ≤ b) then (b : Int) - 256 else (b : Int)

/-- The library call `putchar(c)`: writes `(unsigned char)c` to the stream. -/
def putchar (c : Int) (st : State) : State :=
  { (st.emit (.putchar c)) with stdout := st.stdout ++ [(c % 256).toNat] }

/-- Lines 15-20: the barrier statement chosen by the toolchain conditional. -/
def barrier (d : Defines) (p : Nat) (st : State) : State :=
  if evalOr d condLine15 then
    st.emit (.asmTouch p)
  else if evalOr d condLine17 then
    { (st.emit (.sinkStore p)) with sink := some p }
  else
    st

/-- Lines 21-25: the controlling expression of the `if`, `_getpid() == 1` or
`getpid() == 1`. -/
def pidIsOne (d : Defines) (env : Env) (st : State) : Bool × State :=
  if evalOr d condLine21 then
    (env._getpid == 1, st.emit (.call ._getpid))
  else
    (env.getpid == 1, st.emit (.call .getpid))

/-- Lines 13-29: `void doNotOptimizeAwayImpl(void* p)`. -/
def doNotOptimizeAwayImpl (d : Defines) (env : Env) (p : Nat) (st : State) : Outcome :=
  let st1 := barrier d p st
  let (isOne, st2) := pidIsOne d env st1
  if isOne then
    let st3 := st2.emit (.load p)
    match st3.mem p with
    | none => .undefinedBehaviour st3
    | some b => .returned (putchar (asChar env b) st3)
  else
    .returned st2

/-- The process identifier reported to the call: the return value of the query
declared for this build. -/
def reportedPid (d : Defines) (env : Env) : Int :=
  match declaredQuery d with
  | ._getpid => env._getpid
  | .getpid => env.getpid

/-! ## Predicates on traces -/

/-- An action that reads through a pointer. -/
def Event.isLoad : Event → Bool
  | .load _ => true
  | _ => false

/-- An action that calls a process-identifier query. -/
def Event.isCall : Event → Bool
  | .call _ => true
  | _ => false

/-- An action that uses the address `p`. -/
def Event.uses (p : Nat) : Event → Bool
  | .asmTouch q => q == p
  | .sinkStore q => q == p
  | .load q => q == p
  | _ => false

/-- Some action ahead of the first process-identifier query uses `p`. -/
def usedBeforePidCheck (p : Nat) : List Event → Bool
  | [] => false
  | e :: es => if e.isCall then false else (e.uses p || usedBeforePidCheck p es)

/-! ## Sample inputs -/

/-- No identifier defined. -/
def noneDefined : Defines := fun _ => false

/-- Exactly the listed identifiers defined. -/
def definedOnly (l : List Symbol) : Defines := fun s => decide (s ∈ l)

/-- Memory with the single readable byte `0x41` at address 16. -/
def memA : Nat → Option Nat := fun a => if a = 16 then some 0x41 else none

/-- A fresh state over `memA` with nothing written yet. -/
def stateA (sink : Option Nat) : State :=
  { mem := memA, sink := sink, stdout := [], trace := [] }

/-- A platform on which the process is number 1. -/
def envInit : Env := { _getpid := 1, getpid := 1, charIsSigned := true }

/-- A platform on which the process is number 4242. -/
def envUser : Env := { _getpid := 4242, getpid := 4242, charIsSigned := true }

/-! ## Evaluation of the conditions -/

theorem evalOr_condLine7 (d : Defines) :
    evalOr d condLine7 = (d .WIN32 || d ._WIN32 || (d .__WIN32 && !(d .__CYGWIN__))) := by
  simp [evalOr, evalAnd, evalUnary, splitAtTok, condLine7, Bool.or_assoc]

theorem evalOr_condLine21 (d : Defines) :
    evalOr d condLine21 = (d .WIN32 || d ._WIN32 || (d .__WIN32 && !(d .__CYGWIN__))) := by
  simp [evalOr, evalAnd, evalUnary, splitAtTok, condLine21, Bool.or_assoc]

theorem evalOr_condLine15 (d : Defines) :
    evalOr d condLine15 = (d .__clang__ && d .__GNUC__) := by
  simp [evalOr, evalAnd, evalUnary, splitAtTok, condLine15]

theorem evalOr_condLine17 (d : Defines) :
    evalOr d condLine17 = d .__DMC__ := by
  simp [evalOr, evalAnd, evalUnary, splitAtTok, condLine17]

theorem condLine21_eq_condLine7 : condLine21 = condLine7 := rfl

/-! ## Effect of the two preprocessor-selected fragments -/

theorem barrier_mem (d : Defines) (p : Nat) (st : State) :
    (barrier d p st).mem = st.mem := by
  unfold barrier State.emit
  split
  · rfl
  · split <;> rfl

theorem barrier_stdout (d : Defines) (p : Nat) (st : State) :
    (barrier d p st).stdout = st.stdout := by
  unfold barrier State.emit
  split
  · rfl
  · split <;> rfl

theorem barrier_trace (d : Defines) (p : Nat) (st : State) :
    (barrier d p st).trace = st.trace ++
      (if (d .__clang__ && d .__GNUC__) = true then [Event.asmTouch p]
       else if d .__DMC__ = true then [Event.sinkStore p] else []) := by
  unfold barrier State.emit
  rw [evalOr_condLine15, evalOr_condLine17]
  split
  · rfl
  · split <;> simp

theorem barrier_sink (d : Defines) (p : Nat) (st : State) :
    (barrier d p st).sink =
      (if (!(d .__clang__ && d .__GNUC__) && d .__DMC__) = true then some p else st.sink) := by
  unfold barrier State.emit
  rw [evalOr_condLine15, evalOr_condLine17]
  cases d .__clang__ <;> cases d .__GNUC__ <;> cases d .__DMC__ <;> simp

theorem pidIsOne_fst (d : Defines) (env : Env) (st : State) :
    (pidIsOne d env st).1 = decide (reportedPid d env = 1) := by
  unfold pidIsOne reportedPid declaredQuery
  rw [condLine21_eq_condLine7]
  cases evalOr d condLine7 <;> rfl

theorem pidIsOne_snd (d : Defines) (env : Env) (st : State) :
    (pidIsOne d env st).2 = st.emit (.call (declaredQuery d)) := by
  unfold pidIsOne declaredQuery
  rw [condLine21_eq_condLine7]
  cases evalOr d condLine7 <;> simp

/-- The body, with the two conditionals resolved. -/
theorem doNotOptimizeAwayImpl_eq (d : Defines) (env : Env) (p : Nat) (st : State) :
    doNotOptimizeAwayImpl d env p st =
      if reportedPid d env = 1 then
        match st.mem p with
        | none =>
          .undefinedBehaviour (((barrier d p st).emit (.call (declaredQuery d))).emit (.load p))
        | some b =>
          .returned (putchar (asChar env b)
            (((barrier d p st).emit (.call (declaredQuery d))).emit (.load p)))
      else
        .returned ((barrier d p st).emit (.call (declaredQuery d))) := by
  simp only [doNotOptimizeAwayImpl, pidIsOne_fst, pidIsOne_snd]
  by_cases h : reportedPid d env = 1
  · simp [h, State.emit, barrier_mem]
  · simp [h]

theorem asChar_roundtrip (env : Env) (b : Nat) (hb : b < 256) :
    ((asChar env b) % 256).toNat = b := by
  unfold asChar
  split
  · omega
  · omega

theorem trace_eq (d : Defines) (env : Env) (p : Nat) (st : State) :
    (doNotOptimizeAwayImpl d env p st).state.trace = st.trace ++
      ((if (d .__clang__ && d .__GNUC__) = true then [Event.asmTouch p]
        else if d .__DMC__ = true then [Event.sinkStore p] else []) ++
       Event.call (declaredQuery d) ::
        (if reportedPid d env = 1 then
          match st.mem p with
          | none => [Event.load p]
          | some b => [Event.load p, Event.putchar (asChar env b)]
         else [])) := by
  rw [doNotOptimizeAwayImpl_eq]
  by_cases h : reportedPid d env = 1
  · cases hm : st.mem p <;>
      simp [h, Outcome.state, State.emit, putchar, barrier_trace, List.append_assoc]
  · simp [h, Outcome.state, State.emit, barrier_trace, List.append_assoc]

theorem calls_eq (d : Defines) (env : Env) (p : Nat) (st : State) :
    (doNotOptimizeAwayImpl d env p st).state.trace.filter Event.isCall
      = st.trace.filter Event.isCall ++ [Event.call (declaredQuery d)] := by
  rw [trace_eq]
  by_cases h : reportedPid d env = 1
  · cases hm : st.mem p <;>
      cases d .__clang__ <;> cases d .__GNUC__ <;> cases d .__DMC__ <;>
        simp [h, Event.isCall]
  · cases d .__clang__ <;> cases d .__GNUC__ <;> cases d .__DMC__ <;>
      simp [h, Event.isCall]

/-! ## The claims -/

/-- C1: when the reported process identifier is 1 and the byte stored at `p`
is `b` (any value below 256, whether plain `char` is signed or not), the call
returns and standard output is its prior content followed by the one byte `b`. -/
theorem C1_pid_one_writes_the_byte (d : Defines) (env : Env) (p b : Nat) (st : State)
    (hpid : reportedPid d env = 1) (hb : b < 256) (hm : st.mem p = some b) :
    ∃ st', doNotOptimizeAwayImpl d env p st = Outcome.returned st' ∧
      st'.stdout = st.stdout ++ [b] := by
  rw [doNotOptimizeAwayImpl_eq]
  simp only [hpid, if_true, hm]
  refine ⟨_, rfl, ?_⟩
  simp [putchar, State.emit, barrier_stdout, asChar_roundtrip env b hb]

/-- Witness for C1: process identifier 1 and `*p = 0x41` print `A`. -/
theorem C1_pid_one_writes_the_byte_witness :
    (reportedPid noneDefined envInit = 1 ∧ 0x41 < 256 ∧ (stateA none).mem 16 = some 0x41) ∧
    ∃ st', doNotOptimizeAwayImpl noneDefined envInit 16 (stateA none) = Outcome.returned st' ∧
      st'.stdout = (stateA none).stdout ++ [0x41] :=
  ⟨⟨by decide, by decide, by decide⟩,
   C1_pid_one_writes_the_byte noneDefined envInit 16 0x41 (stateA none)
     (by decide) (by decide) (by decide)⟩

/-- C2: when the reported process identifier is not 1, standard output after
the call equals standard output before it, for every address and memory. -/
theorem C2_other_pid_writes_nothing (d : Defines) (env : Env) (p : Nat) (st : State)
    (hpid : reportedPid d env ≠ 1) :
    (doNotOptimizeAwayImpl d env p st).state.stdout = st.stdout := by
  rw [doNotOptimizeAwayImpl_eq]
  simp [hpid, Outcome.state, State.emit, barrier_stdout]

/-- Witness for C2: process identifier 4242, nothing is printed. -/
theorem C2_other_pid_writes_nothing_witness :
    reportedPid noneDefined envUser ≠ 1 ∧
    (doNotOptimizeAwayImpl noneDefined envUser 16 (stateA none)).state.stdout =
      (stateA none).stdout :=
  ⟨by decide, C2_other_pid_writes_nothing noneDefined envUser 16 (stateA none) (by decide)⟩

/-- C3: for a non-null readable address `p`, whatever the process identifier
and the build configuration, the call returns with every byte of memory, the
one at `p` included, as it was. -/
theorem C3_memory_unchanged (d : Defines) (env : Env) (p b : Nat) (st : State)
    (_hp : p ≠ 0) (hm : st.mem p = some b) :
    ∃ st', doNotOptimizeAwayImpl d env p st = Outcome.returned st' ∧
      st'.mem = st.mem ∧ st'.mem p = some b := by
  rw [doNotOptimizeAwayImpl_eq]
  by_cases h : reportedPid d env = 1
  · simp only [h, if_true, hm]
    refine ⟨_, rfl, ?_, ?_⟩ <;> simp [putchar, State.emit, barrier_mem, hm]
  · simp only [h, if_false]
    refine ⟨_, rfl, ?_, ?_⟩ <;> simp [State.emit, barrier_mem, hm]

/-- Witness for C3: the sentinel path under the global-sink build. -/
theorem C3_memory_unchanged_witness :
    ((16 : Nat) ≠ 0 ∧ (stateA (some 0)).mem 16 = some 0x41) ∧
    ∃ st', doNotOptimizeAwayImpl (definedOnly [.__DMC__]) envInit 16 (stateA (some 0)) =
        Outcome.returned st' ∧
      st'.mem = (stateA (some 0)).mem ∧ st'.mem 16 = some 0x41 :=
  ⟨⟨by decide, by decide⟩,
   C3_memory_unchanged (definedOnly [.__DMC__]) envInit 16 0x41 (stateA (some 0))
     (by decide) (by decide)⟩

/-- C4: for a valid address and a process identifier other than 1 the call
returns: the outcome is a returned state, carrying no result value. -/
theorem C4_returns_when_pid_not_one (d : Defines) (env : Env) (p b : Nat) (st : State)
    (_hm : st.mem p = some b) (hpid : reportedPid d env ≠ 1) :
    ∃ st', doNotOptimizeAwayImpl d env p st = Outcome.returned st' := by
  rw [doNotOptimizeAwayImpl_eq]
  simp [hpid]

/-- Witness for C4: a Windows build, process identifier 4242. -/
theorem C4_returns_when_pid_not_one_witness :
    ((stateA none).mem 16 = some 0x41 ∧ reportedPid (definedOnly [.WIN32]) envUser ≠ 1) ∧
    ∃ st', doNotOptimizeAwayImpl (definedOnly [.WIN32]) envUser 16 (stateA none) =
      Outcome.returned st' :=
  ⟨⟨by decide, by decide⟩,
   C4_returns_when_pid_not_one (definedOnly [.WIN32]) envUser 16 0x41 (stateA none)
     (by decide) (by decide)⟩


/-- C5, as stated, fails: in a build with only `__DMC__` defined the static of
line 4 is declared, holds null before the call and the address `p = 16` after
it. -/
theorem C5_sink_changed_counterexample :
    sinkDeclared (definedOnly [.__DMC__]) = true ∧
    (doNotOptimizeAwayImpl (definedOnly [.__DMC__]) envUser 16 (stateA (some 0))).state.sink
        = some 16 ∧
    (doNotOptimizeAwayImpl (definedOnly [.__DMC__]) envUser 16 (stateA (some 0))).state.sink
        ≠ (stateA (some 0)).sink := by
  decide

/-- C5, amended: in every build configuration the static of line 4 ends up
holding `p` when `__DMC__` is defined and `__clang__`, `__GNUC__` are not both
defined, and keeps its value otherwise; memory is unchanged in every
configuration, so the call changes nothing but standard output, the trace of
its own actions and, in that one family of builds, the static. -/
theorem C5_sink_frame (d : Defines) (env : Env) (p : Nat) (st : State) :
    (doNotOptimizeAwayImpl d env p st).state.sink =
        (if (!(d .__clang__ && d .__GNUC__) && d .__DMC__) = true then some p else st.sink) ∧
    (doNotOptimizeAwayImpl d env p st).state.mem = st.mem := by
  rw [doNotOptimizeAwayImpl_eq]
  by_cases h : reportedPid d env = 1
  · cases hm : st.mem p <;>
      simp [h, Outcome.state, State.emit, putchar, barrier_sink, barrier_mem]
  · simp [h, Outcome.state, State.emit, barrier_sink, barrier_mem]

/-- C6, as stated, fails: with only `__GNUC__` defined the first action of the
call is the process-identifier query, so nothing uses `p` ahead of it. -/
theorem C6_no_barrier_counterexample :
    (doNotOptimizeAwayImpl (definedOnly [.__GNUC__]) envUser 16 (stateA none)).state.trace
        = [Event.call PidQuery.getpid] ∧
    usedBeforePidCheck 16
      (doNotOptimizeAwayImpl (definedOnly [.__GNUC__]) envUser 16 (stateA none)).state.trace
        = false := by
  decide

/-- C6, amended: the actions ahead of the process-identifier query are the
inline-assembly touch of `p` when `__clang__` and `__GNUC__` are both defined,
otherwise the store of `p` to the static when `__DMC__` is defined, otherwise
none; so `p` is used ahead of the query exactly in the first two families. -/
theorem C6_barrier_selection (d : Defines) (env : Env) (p : Nat) (st : State) :
    (∃ rest, (doNotOptimizeAwayImpl d env p st).state.trace = st.trace ++
      ((if (d .__clang__ && d .__GNUC__) = true then [Event.asmTouch p]
        else if d .__DMC__ = true then [Event.sinkStore p] else []) ++
       Event.call (declaredQuery d) :: rest)) ∧
    usedBeforePidCheck p (doNotOptimizeAwayImpl d env p { st with trace := [] }).state.trace
      = ((d .__clang__ && d .__GNUC__) || d .__DMC__) := by
  refine ⟨⟨_, trace_eq d env p st⟩, ?_⟩
  rw [trace_eq]
  cases d .__clang__ <;> cases d .__GNUC__ <;> cases d .__DMC__ <;>
    simp [usedBeforePidCheck, Event.isCall, Event.uses]

/-- C7: a build that declares `_getpid` and a build that declares `getpid`,
given the same reported process identifier, end alike (both return or both
fault) with the same standard output and the same memory; and in every build
the call makes exactly one process-identifier query, the declared one. -/
theorem C7_variants_agree (dW dP : Defines) (env : Env) (p : Nat) (st : State)
    (hW : declaredQuery dW = PidQuery._getpid) (hP : declaredQuery dP = PidQuery.getpid)
    (hpid : env._getpid = env.getpid) :
    ((doNotOptimizeAwayImpl dW env p st).faulted = (doNotOptimizeAwayImpl dP env p st).faulted ∧
     (doNotOptimizeAwayImpl dW env p st).state.stdout
       = (doNotOptimizeAwayImpl dP env p st).state.stdout ∧
     (doNotOptimizeAwayImpl dW env p st).state.mem
       = (doNotOptimizeAwayImpl dP env p st).state.mem) ∧
    (doNotOptimizeAwayImpl dW env p st).state.trace.filter Event.isCall
      = st.trace.filter Event.isCall ++ [Event.call PidQuery._getpid] ∧
    (doNotOptimizeAwayImpl dP env p st).state.trace.filter Event.isCall
      = st.trace.filter Event.isCall ++ [Event.call PidQuery.getpid] ∧
    (∀ d : Defines,
      (if evalOr d condLine21 then PidQuery._getpid else PidQuery.getpid) = declaredQuery d ∧
      (doNotOptimizeAwayImpl d env p st).state.trace.filter Event.isCall
        = st.trace.filter Event.isCall ++ [Event.call (declaredQuery d)]) := by
  have calls : ∀ d : Defines,
      (doNotOptimizeAwayImpl d env p st).state.trace.filter Event.isCall
        = st.trace.filter Event.isCall ++ [Event.call (declaredQuery d)] :=
    fun d => calls_eq d env p st
  have hrW : reportedPid dW env = env.getpid := by simp [reportedPid, hW, hpid]
  have hrP : reportedPid dP env = env.getpid := by simp [reportedPid, hP]
  refine ⟨?_, ?_, ?_, ?_⟩
  · rw [doNotOptimizeAwayImpl_eq, doNotOptimizeAwayImpl_eq, hrW, hrP]
    by_cases h : env.getpid = 1
    · cases hm : st.mem p <;>
        simp [h, Outcome.state, Outcome.faulted, State.emit, putchar, barrier_stdout,
          barrier_mem]
    · simp [h, Outcome.state, Outcome.faulted, State.emit, barrier_stdout, barrier_mem]
  · rw [calls dW, hW]
  · rw [calls dP, hP]
  · intro d
    exact ⟨by rw [condLine21_eq_condLine7]; rfl, calls d⟩

/-- Witness for C7: a `_WIN32` build against a build with nothing defined, on
the sentinel path. -/
theorem C7_variants_agree_witness :
    (declaredQuery (definedOnly [._WIN32]) = PidQuery._getpid ∧
     declaredQuery noneDefined = PidQuery.getpid ∧ envInit._getpid = envInit.getpid) ∧
    (doNotOptimizeAwayImpl (definedOnly [._WIN32]) envInit 16 (stateA none)).state.stdout
      = (doNotOptimizeAwayImpl noneDefined envInit 16 (stateA none)).state.stdout :=
  ⟨⟨by decide, by decide, by decide⟩,
   (C7_variants_agree (definedOnly [._WIN32]) noneDefined envInit 16 (stateA none)
     (by decide) (by decide) (by decide)).1.2.1⟩


/-- C9: the call reads through a pointer exactly when the reported process
identifier is 1, and then makes the single one-byte read at `p`; it faults
exactly when the identifier is 1 and `p` is not a readable byte; with any
other identifier it returns, whatever `p` is (null and unreadable included). -/
theorem C9_read_only_on_sentinel (d : Defines) (env : Env) (p : Nat) (st : State) :
    (doNotOptimizeAwayImpl d env p st).state.trace.filter Event.isLoad
      = st.trace.filter Event.isLoad ++
          (if reportedPid d env = 1 then [Event.load p] else []) ∧
    ((doNotOptimizeAwayImpl d env p st).faulted = true ↔
      (reportedPid d env = 1 ∧ st.mem p = none)) ∧
    (reportedPid d env ≠ 1 → ∃ st', doNotOptimizeAwayImpl d env p st = Outcome.returned st') := by
  refine ⟨?_, ?_, ?_⟩
  · rw [trace_eq]
    by_cases h : reportedPid d env = 1
    · cases hm : st.mem p <;>
        cases d .__clang__ <;> cases d .__GNUC__ <;> cases d .__DMC__ <;>
          simp [h, Event.isLoad]
    · cases d .__clang__ <;> cases d .__GNUC__ <;> cases d .__DMC__ <;>
        simp [h, Event.isLoad]
  · rw [doNotOptimizeAwayImpl_eq]
    by_cases h : reportedPid d env = 1
    · cases hm : st.mem p <;> simp [h, Outcome.faulted]
    · simp [h, Outcome.faulted]
  · intro h
    rw [doNotOptimizeAwayImpl_eq]
    simp [h]

/-- Witness for C9: the null pointer with process identifier 4242 returns
without a read; with identifier 1 it faults after one read attempt. -/
theorem C9_read_only_on_sentinel_witness :
    (reportedPid noneDefined envUser ≠ 1 ∧ (stateA none).mem 0 = none) ∧
    (∃ st', doNotOptimizeAwayImpl noneDefined envUser 0 (stateA none) = Outcome.returned st') ∧
    ((doNotOptimizeAwayImpl noneDefined envInit 0 (stateA none)).faulted = true) :=
  ⟨⟨by decide, by decide⟩,
   (C9_read_only_on_sentinel noneDefined envUser 0 (stateA none)).2.2 (by decide),
   (C9_read_only_on_sentinel noneDefined envInit 0 (stateA none)).2.1.mpr
     ⟨by decide, by decide⟩⟩

/-- C10: the condition of lines 7 and 21 reads as
`WIN32 || _WIN32 || (__WIN32 && !__CYGWIN__)`: `_getpid` is declared and called
exactly when `WIN32` is defined, or `_WIN32` is, or `__WIN32` is and
`__CYGWIN__` is not; `getpid` exactly when `WIN32` and `_WIN32` are undefined
and (`__WIN32` is undefined or `__CYGWIN__` is defined); and with `_WIN32` and
`__CYGWIN__` both defined it is `_getpid`, so Cygwin is not excluded there. -/
theorem C10_platform_condition_reading (d : Defines) (env : Env) (p : Nat) (st : State) :
    (evalOr d condLine7 = (d .WIN32 || d ._WIN32 || (d .__WIN32 && !(d .__CYGWIN__))) ∧
     evalOr d condLine21 = (d .WIN32 || d ._WIN32 || (d .__WIN32 && !(d .__CYGWIN__)))) ∧
    (declaredQuery d = PidQuery._getpid ↔
      (d .WIN32 = true ∨ d ._WIN32 = true ∨ (d .__WIN32 = true ∧ d .__CYGWIN__ = false))) ∧
    (declaredQuery d = PidQuery.getpid ↔
      (d .WIN32 = false ∧ d ._WIN32 = false ∧ (d .__WIN32 = false ∨ d .__CYGWIN__ = true))) ∧
    ((pidIsOne d env st).2.trace = st.trace ++ [Event.call (declaredQuery d)]) ∧
    ((doNotOptimizeAwayImpl d env p st).state.trace.filter Event.isCall
      = st.trace.filter Event.isCall ++ [Event.call (declaredQuery d)]) ∧
    declaredQuery (definedOnly [._WIN32, .__CYGWIN__]) = PidQuery._getpid ∧
    evalOr (definedOnly [._WIN32, .__CYGWIN__]) condLine7
      ≠ ((definedOnly [._WIN32, .__CYGWIN__] .WIN32 || definedOnly [._WIN32, .__CYGWIN__] ._WIN32
            || definedOnly [._WIN32, .__CYGWIN__] .__WIN32)
          && !(definedOnly [._WIN32, .__CYGWIN__] .__CYGWIN__)) := by
  refine ⟨⟨evalOr_condLine7 d, evalOr_condLine21 d⟩, ?_, ?_, ?_, ?_, by decide, by decide⟩
  · unfold declaredQuery
    rw [evalOr_condLine7]
    cases d .WIN32 <;> cases d ._WIN32 <;> cases d .__WIN32 <;> cases d .__CYGWIN__ <;> simp
  · unfold declaredQuery
    rw [evalOr_condLine7]
    cases d .WIN32 <;> cases d ._WIN32 <;> cases d .__WIN32 <;> cases d .__CYGWIN__ <;> simp
  · rw [pidIsOne_snd]
    rfl
  · exact calls_eq d env p st

end DoNotOptimizeAway
